import Mathlib

/-!
Shallow embedding of `src/download_upload_weather_prediction_data_to_s3.py`.

The script reads a CSV manifest, and for each record: derives a storage key
from the record's period text (`parse_period`), downloads the file with curl
(`download_file`, linear-backoff retry loop), uploads it to S3
(`upload_to_s3`, same retry policy with non-retryable `FileNotFoundError` and
`NoCredentialsError`), and deletes the local copy on success (`os.remove`,
failures only logged).

External effects (curl subprocess, boto3 S3 client, os.remove, time.sleep,
logging) are modelled as injected capabilities / recorded traces: each fetch
or put attempt's outcome is supplied by an oracle indexed by attempt number,
sleeps are recorded as a list of durations, and log output is ignored.
-/

namespace WeatherS3

/-! Section: Configuration constants (script lines 25-30) -/

def S3_BUCKET_NAME : String := "dermsplanner-dev-bucket-weather-prediction-data-491085428607"

def S3_STORAGE_CLASS : String := "STANDARD"

def DOWNLOAD_DIR : String := "./data/output/"

def CSV_FILE_PATH : String := "./data/input/ods_download_url.csv"

def RETRIES : Nat := 1

def BACKOFF_FACTOR : Nat := 5

/-! Section: parse_period (script lines 40-57)

Python extracts date triples with `re.findall(r'(\d{4})年(\d{1,2})月(\d{1,2})日', s)`,
requires exactly two matches, builds `datetime` values (which validate the
calendar date, raising `ValueError` caught by the enclosing `except` that
returns `None`), and formats them `'%Y%m%d'` joined by `-`.

`\d` is modelled as the ASCII digits 0-9 (the claims only involve ASCII
digits). `%Y` is modelled as the unpadded decimal year, matching glibc
strftime used by CPython on Linux; for the four-digit years appearing in
every claim this coincides with the written digits. -/

/-- Take up to `fuel` leading decimal digits off a character list, returning
the digits taken and the rest (models greedy matching of a bounded digit
group whose follower is a non-digit literal). -/
def splitDigits : Nat → List Char → List Char × List Char
  | 0, cs => ([], cs)
  | _ + 1, [] => ([], [])
  | fuel + 1, c :: cs =>
    if c.isDigit then
      let p := splitDigits fuel cs
      (c :: p.1, p.2)
    else ([], c :: cs)

/-- Decimal value of a digit string, as Python `int` of the matched group. -/
def digitsToNat (ds : List Char) : Nat :=
  ds.foldl (fun n c => n * 10 + (c.toNat - 48)) 0

/-- Match the regex `(\d{4})年(\d{1,2})月(\d{1,2})日` at the head of the
character list; on success return the three numeric groups and the remaining
characters after the match. -/
def matchDate (cs : List Char) : Option ((Nat × Nat × Nat) × List Char) :=
  let y := splitDigits 4 cs
  if y.1.length = 4 then
    match y.2 with
    | '年' :: r2 =>
      let m := splitDigits 2 r2
      if 1 ≤ m.1.length then
        match m.2 with
        | '月' :: r4 =>
          let d := splitDigits 2 r4
          if 1 ≤ d.1.length then
            match d.2 with
            | '日' :: r6 => some ((digitsToNat y.1, digitsToNat m.1, digitsToNat d.1), r6)
            | _ => none
          else none
        | _ => none
      else none
    | _ => none
  else none

/-- Scan for all non-overlapping leftmost matches, as `re.findall`: try each
start position left to right, resuming after the end of a match. The fuel is
the remaining string length; a match always consumes at least one character,
so fuel never runs out before the string does. -/
def findDatesAux : Nat → List Char → List (Nat × Nat × Nat)
  | 0, _ => []
  | _ + 1, [] => []
  | fuel + 1, c :: cs =>
    match matchDate (c :: cs) with
    | some (t, rest) => t :: findDatesAux fuel rest
    | none => findDatesAux fuel cs

/-- All matches of the date pattern in a character list, in textual order. -/
def findDates (cs : List Char) : List (Nat × Nat × Nat) :=
  findDatesAux cs.length cs

/-- Gregorian leap-year test, as Python `datetime`. -/
def isLeap (y : Nat) : Bool :=
  (y % 4 = 0 && y % 100 ≠ 0) || y % 400 = 0

/-- Number of days in a month, as Python `datetime`. -/
def daysInMonth (y m : Nat) : Nat :=
  if m = 2 then (if isLeap y then 29 else 28)
  else if m = 4 || m = 6 || m = 9 || m = 11 then 30
  else 31

/-- Validity check performed by the `datetime(year, month, day)` constructor;
an invalid triple raises `ValueError`, which `parse_period` turns into
`None`. -/
def validDate (y m d : Nat) : Bool :=
  1 ≤ y && y ≤ 9999 && 1 ≤ m && m ≤ 12 && 1 ≤ d && d ≤ daysInMonth y m

/-- Two-digit zero padding, as strftime `%m` and `%d`. -/
def pad2 (n : Nat) : String :=
  if n < 10 then "0" ++ toString n else toString n

/-- strftime `'%Y%m%d'`: unpadded year (glibc `%Y`), zero-padded month and
day. -/
def fmtDate (y m d : Nat) : String :=
  toString y ++ pad2 m ++ pad2 d

/-- `parse_period(period_str)`: `None` unless the regex finds exactly two
date triples and both are valid calendar dates; otherwise the two dates
formatted `YYYYMMDD`, joined by `-`, in textual order. -/
def parsePeriod (periodStr : String) : Option String :=
  match findDates periodStr.data with
  | [(y1, m1, d1), (y2, m2, d2)] =>
    if validDate y1 m1 d1 && validDate y2 m2 d2 then
      some (fmtDate y1 m1 d1 ++ "-" ++ fmtDate y2 m2 d2)
    else none
  | _ => none

/-! Section: download_file (script lines 59-105)

The Python loop is `for attempt in range(1, retries + 1)`. A curl exit code
of 0 returns `True`; a nonzero exit raises `CalledProcessError`, and both
that and any other exception take the same path: if `attempt < retries`,
sleep `backoff_factor * attempt` seconds and continue, else return `False`.
If `retries < 1` the loop body never runs and the function falls off the end,
returning Python `None`.

The curl subprocess is modelled by an oracle `fetch : Nat → FetchOutcome`
giving each attempt's outcome. The embedding recurses on
`remaining = retries + 1 - attempt` and returns the Python return value
(`Option Bool`, with `none` for Python `None`), the number of fetch
invocations, and the list of sleep durations in order. -/

/-- Outcome of one curl invocation: exit code 0, nonzero exit code
(`CalledProcessError` branch), or any other exception (generic `except`
branch). The two failure kinds take identical retry decisions. -/
inductive FetchOutcome
  | ok
  | curlError
  | unexpected
deriving DecidableEq

/-- The retry loop of `download_file`, recursing on the number of remaining
loop iterations; `attempt` is the 1-based attempt number of the next
iteration. Returns (Python return value, fetch invocations, sleeps). -/
def downloadFileGo (fetch : Nat → FetchOutcome) (backoff : Nat) :
    Nat → Nat → Option Bool × Nat × List Nat
  | _, 0 => (none, 0, [])
  | attempt, rem + 1 =>
    match fetch attempt with
    | FetchOutcome.ok => (some true, 1, [])
    | _ =>
      if rem = 0 then (some false, 1, [])
      else
        let rest := downloadFileGo fetch backoff (attempt + 1) rem
        (rest.1, rest.2.1 + 1, backoff * attempt :: rest.2.2)

/-- `download_file(url, download_path, retries, backoff_factor)`; the url and
path only flow into the curl command and the logs, so the observable data is
the attempt trace. -/
def downloadFile (fetch : Nat → FetchOutcome) (retries backoff : Nat) :
    Option Bool × Nat × List Nat :=
  downloadFileGo fetch backoff 1 retries

/-! Section: upload_to_s3 (script lines 107-136)

Same loop shape as `download_file`. `FileNotFoundError` and
`NoCredentialsError` return `False` immediately, with no sleep and no further
attempt; `ClientError` retries under the same linear backoff, returning
`False` on the last attempt; success returns `True`; `retries < 1` falls off
the loop returning `None`. -/

/-- Outcome of one `s3_client.upload_file` call. -/
inductive UploadOutcome
  | ok
  | fileNotFound
  | noCredentials
  | clientError
deriving DecidableEq

/-- The retry loop of `upload_to_s3`, recursing on remaining iterations.
Returns (Python return value, upload invocations, sleeps). -/
def uploadToS3Go (put : Nat → UploadOutcome) (backoff : Nat) :
    Nat → Nat → Option Bool × Nat × List Nat
  | _, 0 => (none, 0, [])
  | attempt, rem + 1 =>
    match put attempt with
    | UploadOutcome.ok => (some true, 1, [])
    | UploadOutcome.fileNotFound => (some false, 1, [])
    | UploadOutcome.noCredentials => (some false, 1, [])
    | UploadOutcome.clientError =>
      if rem = 0 then (some false, 1, [])
      else
        let rest := uploadToS3Go put backoff (attempt + 1) rem
        (rest.1, rest.2.1 + 1, backoff * attempt :: rest.2.2)

/-- `upload_to_s3(file_path, bucket, s3_key, storage_class, retries,
backoff_factor)`; the path, bucket, key and storage class only flow into the
boto3 call and the logs. -/
def uploadToS3 (put : Nat → UploadOutcome) (retries backoff : Nat) :
    Option Bool × Nat × List Nat :=
  uploadToS3Go put backoff 1 retries

/-! Section: read_urls_from_csv (script lines 138-153) -/

/-- A parsed CSV: column names and rows of cells aligned with the columns.
A cell holds `none` where pandas (`dtype=str`) reads NaN, i.e. the value is
missing or empty. -/
structure Csv where
  columns : List String
  rows : List (List (Option String))
deriving DecidableEq

/-- The five required columns checked by `read_urls_from_csv`. -/
def requiredColumns : List String :=
  ["配信履歴ID", "データ名", "期間", "URL", "有効期限"]

/-- The columns passed to `df.dropna(subset=...)` — note データ名 is absent. -/
def dropnaColumns : List String :=
  ["配信履歴ID", "期間", "URL", "有効期限"]

/-- Value of a named column in a row (first matching column). -/
def colValue (csv : Csv) (row : List (Option String)) (c : String) : Option String :=
  match csv.columns.findIdx? (fun name => name == c) with
  | some i => (row.get? i).getD none
  | none => none

/-- The `dropna` keep-condition: every subset column's value is non-NaN. -/
def rowKeptByDropna (csv : Csv) (row : List (Option String)) : Bool :=
  dropnaColumns.all (fun c => (colValue csv row c).isSome)

/-- `read_urls_from_csv(csv_path)`: `none` models any read/decode exception
(caught, returning `[]`); otherwise, if some required column is missing the
function logs and returns `[]`, else it returns the rows surviving `dropna`,
in source order. -/
def readUrlsFromCsv (src : Option Csv) : List (List (Option String)) :=
  match src with
  | none => []
  | some csv =>
    if requiredColumns.all (fun c => csv.columns.contains c) then
      csv.rows.filter (rowKeptByDropna csv)
    else []

/-! Section: main (script lines 155-214) -/

/-- One manifest record as consumed by `main`: the four fields it reads from
the row dict. -/
structure Record where
  deliveryId : String
  periodText : String
  url : String
  expiration : String
deriving DecidableEq

/-- The external capabilities one record's processing can touch: the curl
fetch oracle, the S3 put oracle, and whether `os.remove` succeeds. -/
structure Caps where
  fetch : Nat → FetchOutcome
  put : Nat → UploadOutcome
  removeOk : Bool

/-- Python truthiness of `download_file`/`upload_to_s3`'s return value, as
tested by `if not success:` — both `None` and `False` are falsy. -/
def pyTruthy : Option Bool → Bool
  | none => false
  | some b => b

/-- Python f-string rendering of an `Optional[str]`: `None` prints as the
four characters `None`. -/
def pyOptStr : Option String → String
  | none => "None"
  | some s => s

/-- Terminal disposition of one record in `main`'s loop. -/
inductive Outcome
  | failedDownload
  | failedUpload
  | cleaned
  | cleanupFailed
deriving DecidableEq

/-- Everything observable about one record's trip through `main`'s loop
body. -/
structure RecordResult where
  fileName : String
  downloadPath : String
  downloadResult : Option Bool
  fetchCalls : Nat
  downloadSleeps : List Nat
  uploadAttempted : Bool
  uploadResult : Option Bool
  putCalls : Nat
  uploadSleeps : List Nat
  removeAttempted : Bool
  fileDeleted : Bool
  outcome : Outcome
deriving DecidableEq

/-- The body of `main`'s per-record loop (script lines 172-214).
`formatted_expiration = parse_period(period_str)` never raises — the
`except ValueError` handler at lines 181-184 is unreachable, because
`parse_period` catches internally and returns `None` — so the flow always
continues to build `file_name` (interpolating `None` as the text `None` when
parsing failed) and to attempt the download. `download_path` is
`os.path.join(DOWNLOAD_DIR, file_name)`, which is string concatenation since
`DOWNLOAD_DIR` ends in a slash; `s3_key = file_name`. A falsy download
result skips to the next record before any upload; a falsy upload result
skips before `os.remove`, retaining the local file; after a truthy upload,
`os.remove` is attempted and an `OSError` is only logged. -/
def processRecord (caps : Caps) (retries backoff : Nat) (r : Record) : RecordResult :=
  let formatted := parsePeriod r.periodText
  let fileName := r.deliveryId ++ "_" ++ pyOptStr formatted ++ ".zip"
  let downloadPath := DOWNLOAD_DIR ++ fileName
  let d := downloadFile caps.fetch retries backoff
  if pyTruthy d.1 then
    let u := uploadToS3 caps.put retries backoff
    if pyTruthy u.1 then
      { fileName := fileName, downloadPath := downloadPath,
        downloadResult := d.1, fetchCalls := d.2.1, downloadSleeps := d.2.2,
        uploadAttempted := true, uploadResult := u.1,
        putCalls := u.2.1, uploadSleeps := u.2.2,
        removeAttempted := true, fileDeleted := caps.removeOk,
        outcome := if caps.removeOk then Outcome.cleaned else Outcome.cleanupFailed }
    else
      { fileName := fileName, downloadPath := downloadPath,
        downloadResult := d.1, fetchCalls := d.2.1, downloadSleeps := d.2.2,
        uploadAttempted := true, uploadResult := u.1,
        putCalls := u.2.1, uploadSleeps := u.2.2,
        removeAttempted := false, fileDeleted := false,
        outcome := Outcome.failedUpload }
  else
    { fileName := fileName, downloadPath := downloadPath,
      downloadResult := d.1, fetchCalls := d.2.1, downloadSleeps := d.2.2,
      uploadAttempted := false, uploadResult := none,
      putCalls := 0, uploadSleeps := [],
      removeAttempted := false, fileDeleted := false,
      outcome := Outcome.failedDownload }

/-- `main`'s loop over the manifest records, in order; `env i` supplies the
capability outcomes seen by the record at 0-based position `i`. The loop
body ends every path with an implicit or explicit `continue`, so each record
is processed exactly once regardless of the previous records' outcomes. -/
def runBatchFrom (env : Nat → Caps) (retries backoff : Nat) :
    Nat → List Record → List RecordResult
  | _, [] => []
  | i, r :: rs =>
    processRecord (env i) retries backoff r :: runBatchFrom env retries backoff (i + 1) rs

/-- The whole batch run over a manifest. -/
def runBatch (env : Nat → Caps) (retries backoff : Nat) (records : List Record) :
    List RecordResult :=
  runBatchFrom env retries backoff 0 records

/-! Concrete capability environments, records and manifests used to
instantiate the theorems below. -/

/-- Capabilities where every external call succeeds. -/
def goodCaps : Caps :=
  ⟨fun _ => FetchOutcome.ok, fun _ => UploadOutcome.ok, true⟩

/-- Capabilities where every curl invocation exits nonzero. -/
def allCurlFailCaps : Caps :=
  ⟨fun _ => FetchOutcome.curlError, fun _ => UploadOutcome.ok, true⟩

/-- Capabilities where downloads succeed and every S3 put raises
`ClientError`. -/
def transientPutCaps : Caps :=
  ⟨fun _ => FetchOutcome.ok, fun _ => UploadOutcome.clientError, true⟩

/-- Capabilities where download and upload succeed but `os.remove` raises
`OSError`. -/
def removeFailCaps : Caps :=
  ⟨fun _ => FetchOutcome.ok, fun _ => UploadOutcome.ok, false⟩

/-- A record whose period text contains no date in the expected pattern. -/
def badPeriodRecord : Record := ⟨"A1", "garbage", "https://x/file", "2024-12-31"⟩

/-- A record with a well-formed Japanese period text. -/
def sampleRecord : Record :=
  ⟨"A1", "2024年6月28日～2024年6月30日", "https://x/file", "2024-12-31"⟩

/-- A second well-formed record, for two-record batches. -/
def sampleRecordB : Record :=
  ⟨"B2", "2024年7月1日～2024年7月3日", "https://x/file2", "2024-12-31"⟩

/-- The environment giving `goodCaps` to every record. -/
def envGood : Nat → Caps := fun _ => goodCaps

/-- The environment failing every download of the first record only. -/
def envFirstBad : Nat → Caps := fun i => if i = 0 then allCurlFailCaps else goodCaps

/-- The manifest row of the spec's section-8 example, period text verbatim. -/
def specExampleRecord : Record := ⟨"A1", "2024-06-28 to 2024-06-30", "https://x/file", "e"⟩

/-- The section-8 example row with the period written in the Japanese format
that `parse_period`'s regex expects. -/
def jpExampleRecord : Record :=
  ⟨"A1", "2024年6月28日～2024年6月30日", "https://x/file", "e"⟩

/-- A CSV row whose required データ名 value is missing (NaN) while the four
`dropna` columns are populated. -/
def dataNameMissingRow : List (Option String) :=
  [some "A1", none, some "2024年6月28日～2024年6月30日", some "https://x/file", some "2024-12-31"]

/-- A CSV with all five required columns and the single row above. -/
def dataNameMissingCsv : Csv := ⟨requiredColumns, [dataNameMissingRow]⟩

/-- A CSV missing the required URL column entirely. -/
def missingColCsv : Csv :=
  ⟨["配信履歴ID", "データ名", "期間", "有効期限"], [[some "A1", some "n", some "p", some "e"]]⟩

/-! Section: helper lemmas about the retry loops and the batch loop. -/

/-- When every fetch attempt fails, the loop from attempt number `attempt`
with `rem + 1` iterations left returns `False` after `rem + 1` fetch calls,
sleeping `backoff * a` for each non-final attempt number `a`. -/
theorem downloadFileGo_all_fail (fetch : Nat → FetchOutcome) (backoff : Nat)
    (hfail : ∀ a, fetch a ≠ FetchOutcome.ok) :
    ∀ rem attempt, downloadFileGo fetch backoff attempt (rem + 1) =
      (some false, rem + 1, (List.range' attempt rem).map fun a => backoff * a) := by
  intro rem
  induction rem with
  | zero =>
    intro attempt
    cases h : fetch attempt with
    | ok => exact absurd h (hfail attempt)
    | curlError => simp [downloadFileGo, h]
    | unexpected => simp [downloadFileGo, h]
  | succ n ih =>
    intro attempt
    have e : downloadFileGo fetch backoff attempt (n + 1 + 1) =
        ((downloadFileGo fetch backoff (attempt + 1) (n + 1)).1,
         (downloadFileGo fetch backoff (attempt + 1) (n + 1)).2.1 + 1,
         backoff * attempt :: (downloadFileGo fetch backoff (attempt + 1) (n + 1)).2.2) := by
      cases h : fetch attempt with
      | ok => exact absurd h (hfail attempt)
      | curlError =>
        conv_lhs => unfold downloadFileGo
        rw [h]
        rfl
      | unexpected =>
        conv_lhs => unfold downloadFileGo
        rw [h]
        rfl
    rw [e, ih (attempt + 1)]
    simp [List.range']

/-- When every put attempt raises `ClientError`, the upload loop behaves
exactly like the all-failing download loop. -/
theorem uploadToS3Go_all_clientError (put : Nat → UploadOutcome) (backoff : Nat)
    (hce : ∀ a, put a = UploadOutcome.clientError) :
    ∀ rem attempt, uploadToS3Go put backoff attempt (rem + 1) =
      (some false, rem + 1, (List.range' attempt rem).map fun a => backoff * a) := by
  intro rem
  induction rem with
  | zero =>
    intro attempt
    simp [uploadToS3Go, hce attempt]
  | succ n ih =>
    intro attempt
    have e : uploadToS3Go put backoff attempt (n + 1 + 1) =
        ((uploadToS3Go put backoff (attempt + 1) (n + 1)).1,
         (uploadToS3Go put backoff (attempt + 1) (n + 1)).2.1 + 1,
         backoff * attempt :: (uploadToS3Go put backoff (attempt + 1) (n + 1)).2.2) := by
      conv_lhs => unfold uploadToS3Go
      rw [hce attempt]
      rfl
    rw [e, ih (attempt + 1)]
    simp [List.range']

/-- The storage key that `main` derives for a record, on every control path:
the delivery id, an underscore, the rendered `parse_period` result (`None`
text when parsing failed), and `.zip`. -/
theorem processRecord_fileName (caps : Caps) (retries backoff : Nat) (r : Record) :
    (processRecord caps retries backoff r).fileName =
      r.deliveryId ++ "_" ++ pyOptStr (parsePeriod r.periodText) ++ ".zip" := by
  cases hdl : pyTruthy (downloadFile caps.fetch retries backoff).1 with
  | false => simp [processRecord, hdl]
  | true =>
    cases hup : pyTruthy (uploadToS3 caps.put retries backoff).1 with
    | false => simp [processRecord, hdl, hup]
    | true => simp [processRecord, hdl, hup]

/-- The batch loop produces one result per manifest record. -/
theorem runBatchFrom_length (env : Nat → Caps) (retries backoff : Nat) :
    ∀ (rs : List Record) (i : Nat),
      (runBatchFrom env retries backoff i rs).length = rs.length := by
  intro rs
  induction rs with
  | nil => intro i; rfl
  | cons r rs ih => intro i; simp [runBatchFrom, ih (i + 1)]

/-- The result at position `n` of the batch loop started at index `i` is the
record at position `n` processed with the capabilities of index `i + n`. -/
theorem runBatchFrom_get? (env : Nat → Caps) (retries backoff : Nat) :
    ∀ (rs : List Record) (i n : Nat),
      (runBatchFrom env retries backoff i rs).get? n =
        (rs.get? n).map fun r => processRecord (env (i + n)) retries backoff r := by
  intro rs
  induction rs with
  | nil => intro i n; simp [runBatchFrom]
  | cons r rs ih =>
    intro i n
    cases n with
    | zero => simp [runBatchFrom]
    | succ n =>
      have := ih (i + 1) n
      have harith : i + 1 + n = i + (n + 1) := by omega
      rw [harith] at this
      simpa [runBatchFrom] using this

/-! Section: the claims. -/

/-- Claim C1 (code bug evidence): the claim says a record whose period text
fails period formatting is logged and skipped, with no storage key built and
no download or upload attempted. The code does the opposite: `parse_period`
returns `None` instead of raising, the `except ValueError` skip branch is
dead, and `main` builds the key `A1_None.zip` from the failed parse, runs
the download (one fetch call), uploads under that key (one put call) and
even deletes the local file, ending in `cleaned`. -/
theorem formatError_record_not_skipped :
    parsePeriod "garbage" = none
    ∧ (processRecord goodCaps 1 5 badPeriodRecord).fileName = "A1_None.zip"
    ∧ (processRecord goodCaps 1 5 badPeriodRecord).downloadPath = "./data/output/A1_None.zip"
    ∧ (processRecord goodCaps 1 5 badPeriodRecord).fetchCalls = 1
    ∧ (processRecord goodCaps 1 5 badPeriodRecord).putCalls = 1
    ∧ (processRecord goodCaps 1 5 badPeriodRecord).outcome = Outcome.cleaned := by
  decide

/-- Claim C2: when every fetch attempt fails and the retry count `R ≥ 1`,
`download_file` performs exactly `R` attempts with exactly `R - 1`
intervening sleeps of durations `backoff * 1, ..., backoff * (R - 1)` and
returns `False`; the record is then failed at the download stage with no
upload attempted. -/
theorem download_exhaustion_trace (caps : Caps) (retries backoff : Nat) (r : Record)
    (hret : 1 ≤ retries) (hfail : ∀ a, caps.fetch a ≠ FetchOutcome.ok) :
    downloadFile caps.fetch retries backoff =
      (some false, retries, (List.range' 1 (retries - 1)).map fun a => backoff * a)
    ∧ (processRecord caps retries backoff r).uploadAttempted = false
    ∧ (processRecord caps retries backoff r).putCalls = 0
    ∧ (processRecord caps retries backoff r).outcome = Outcome.failedDownload := by
  obtain ⟨rem, rfl⟩ : ∃ rem, retries = rem + 1 :=
    ⟨retries - 1, (Nat.succ_pred_eq_of_pos hret).symm⟩
  have hd : downloadFile caps.fetch (rem + 1) backoff =
      (some false, rem + 1, (List.range' 1 rem).map fun a => backoff * a) :=
    downloadFileGo_all_fail caps.fetch backoff hfail rem 1
  refine ⟨by simpa using hd, ?_, ?_, ?_⟩ <;> simp [processRecord, hd, pyTruthy]

/-- Witness for C2 at `R = 3`, `backoff = 5`: three attempts, sleeps 5 and
10 seconds, record failed at download with zero put calls. -/
theorem download_exhaustion_trace_witness :
    (1 ≤ 3)
    ∧ downloadFile allCurlFailCaps.fetch 3 5 = (some false, 3, [5, 10])
    ∧ (processRecord allCurlFailCaps 3 5 sampleRecord).putCalls = 0
    ∧ (processRecord allCurlFailCaps 3 5 sampleRecord).outcome = Outcome.failedDownload := by
  have h := download_exhaustion_trace allCurlFailCaps 3 5 sampleRecord (by decide)
    (fun a hc => FetchOutcome.noConfusion hc)
  exact ⟨by decide, h.1.trans (by decide), h.2.2.1, h.2.2.2⟩

/-- Claim C3: for `R ≥ 1`, `upload_to_s3` classifies outcomes three ways —
a missing local file (`FileNotFoundError`) and absent credentials
(`NoCredentialsError`) each fail immediately after a single attempt with no
sleep, while a transient `ClientError` on every attempt is retried up to `R`
attempts with linear backoff sleeps `backoff * 1, ..., backoff * (R - 1)`
before returning `False`. -/
theorem upload_outcome_classes (retries backoff : Nat) (hret : 1 ≤ retries) :
    (∀ put : Nat → UploadOutcome, put 1 = UploadOutcome.fileNotFound →
      uploadToS3 put retries backoff = (some false, 1, []))
    ∧ (∀ put : Nat → UploadOutcome, put 1 = UploadOutcome.noCredentials →
      uploadToS3 put retries backoff = (some false, 1, []))
    ∧ (∀ put : Nat → UploadOutcome, (∀ a, put a = UploadOutcome.clientError) →
      uploadToS3 put retries backoff =
        (some false, retries, (List.range' 1 (retries - 1)).map fun a => backoff * a)) := by
  obtain ⟨rem, rfl⟩ : ∃ rem, retries = rem + 1 :=
    ⟨retries - 1, (Nat.succ_pred_eq_of_pos hret).symm⟩
  refine ⟨?_, ?_, ?_⟩
  · intro put h
    conv_lhs => unfold uploadToS3 uploadToS3Go
    rw [h]
  · intro put h
    conv_lhs => unfold uploadToS3 uploadToS3Go
    rw [h]
  · intro put h
    simpa using uploadToS3Go_all_clientError put backoff h rem 1

/-- Witness for C3 at `R = 2`, `backoff = 7`: not-found and no-credentials
each stop after one attempt with no sleep; persistent transient errors give
two attempts and one 7-second sleep. -/
theorem upload_outcome_classes_witness :
    (1 ≤ 2)
    ∧ uploadToS3 (fun _ => UploadOutcome.fileNotFound) 2 7 = (some false, 1, [])
    ∧ uploadToS3 (fun _ => UploadOutcome.noCredentials) 2 7 = (some false, 1, [])
    ∧ uploadToS3 (fun _ => UploadOutcome.clientError) 2 7 = (some false, 2, [7]) := by
  have h := upload_outcome_classes 2 7 (by decide)
  exact ⟨by decide, h.1 _ rfl, h.2.1 _ rfl, (h.2.2 _ fun a => rfl).trans (by decide)⟩

/-- Claim C4: the batch produces one result per record, each record's result
is a function of that record and its own capability outcomes alone, and
changing the capability outcomes of one record (for example making it fail
at any stage) leaves every other record's result unchanged; records are
processed in manifest order (position `i` of the results is position `i` of
the manifest). -/
theorem batch_failure_isolation (env : Nat → Caps) (retries backoff : Nat)
    (records : List Record) :
    (runBatch env retries backoff records).length = records.length
    ∧ (∀ i, (runBatch env retries backoff records).get? i =
        (records.get? i).map fun r => processRecord (env i) retries backoff r)
    ∧ (∀ env' : Nat → Caps, ∀ k, (∀ j, j ≠ k → env' j = env j) → ∀ j, j ≠ k →
        (runBatch env' retries backoff records).get? j =
        (runBatch env retries backoff records).get? j) := by
  have hget : ∀ (e : Nat → Caps) (i : Nat),
      (runBatch e retries backoff records).get? i =
        (records.get? i).map fun r => processRecord (e i) retries backoff r := by
    intro e i
    simpa using runBatchFrom_get? e retries backoff records 0 i
  refine ⟨runBatchFrom_length env retries backoff records 0, hget env, ?_⟩
  intro env' k hagree j hj
  rw [hget env' j, hget env j, hagree j hj]

/-- Witness for C4: failing every download of record 0 does not change the
result of record 1 in a two-record batch. -/
theorem batch_failure_isolation_witness :
    ((1 : Nat) ≠ 0)
    ∧ (runBatch envFirstBad 1 5 [sampleRecord, sampleRecordB]).get? 1 =
      (runBatch envGood 1 5 [sampleRecord, sampleRecordB]).get? 1 := by
  have h := (batch_failure_isolation envGood 1 5 [sampleRecord, sampleRecordB]).2.2
    envFirstBad 0 (fun j hj => by simp [envFirstBad, envGood, hj]) 1 (by decide)
  exact ⟨by decide, h⟩

/-- Counterexample to C5 as stated: a period text whose two valid dates are
in decreasing order is formatted in textual order, so the returned string
has start `20240630` strictly after end `20240628` — the claimed
`start ≤ end` does not hold for every well-formed input. -/
theorem period_order_counterexample :
    parsePeriod "2024年6月30日～2024年6月28日" = some "20240630-20240628"
    ∧ findDates ("2024年6月30日～2024年6月28日").data = [(2024, 6, 30), (2024, 6, 28)]
    ∧ ¬((2024, 6, 30) ≤ ((2024, 6, 28) : Nat × Nat × Nat)) := by
  decide

/-- Claim C5 (amended): whenever the regex scan of the period text yields
exactly two triples and both are valid calendar dates, `parse_period`
returns the two dates formatted `YYYYMMDD` (months and days zero-padded by
`pad2` inside `fmtDate`), joined by `-`, in their textual order of
appearance with no reordering; `start ≤ end` is not enforced. -/
theorem parsePeriod_textual_order (s : String) (y1 m1 d1 y2 m2 d2 : Nat)
    (h : findDates s.data = [(y1, m1, d1), (y2, m2, d2)])
    (hv1 : validDate y1 m1 d1 = true) (hv2 : validDate y2 m2 d2 = true) :
    parsePeriod s = some (fmtDate y1 m1 d1 ++ "-" ++ fmtDate y2 m2 d2) := by
  simp [parsePeriod, h, hv1, hv2]

/-- Witness for C5 on the in-order example period text. -/
theorem parsePeriod_textual_order_witness :
    findDates ("2024年6月28日～2024年6月30日").data = [(2024, 6, 28), (2024, 6, 30)]
    ∧ validDate 2024 6 28 = true
    ∧ validDate 2024 6 30 = true
    ∧ parsePeriod "2024年6月28日～2024年6月30日" =
        some (fmtDate 2024 6 28 ++ "-" ++ fmtDate 2024 6 30) :=
  ⟨by decide, by decide, by decide,
    parsePeriod_textual_order _ 2024 6 28 2024 6 30 (by decide) (by decide) (by decide)⟩

/-- Claim C6: when the download succeeds and the upload ends falsy after its
retry budget, `os.remove` is never reached — the local file is retained —
and the record's terminal outcome is the upload failure. -/
theorem upload_failure_retains_local_file (caps : Caps) (retries backoff : Nat) (r : Record)
    (hdl : pyTruthy (downloadFile caps.fetch retries backoff).1 = true)
    (hup : pyTruthy (uploadToS3 caps.put retries backoff).1 = false) :
    (processRecord caps retries backoff r).removeAttempted = false
    ∧ (processRecord caps retries backoff r).fileDeleted = false
    ∧ (processRecord caps retries backoff r).uploadAttempted = true
    ∧ (processRecord caps retries backoff r).outcome = Outcome.failedUpload := by
  refine ⟨?_, ?_, ?_, ?_⟩ <;> simp [processRecord, hdl, hup]

/-- Witness for C6: a successful fetch with persistently transient uploads
retains the local file and fails the record at the upload stage. -/
theorem upload_failure_retains_local_file_witness :
    pyTruthy (downloadFile transientPutCaps.fetch 1 5).1 = true
    ∧ pyTruthy (uploadToS3 transientPutCaps.put 1 5).1 = false
    ∧ (processRecord transientPutCaps 1 5 sampleRecord).removeAttempted = false
    ∧ (processRecord transientPutCaps 1 5 sampleRecord).outcome = Outcome.failedUpload := by
  have h := upload_failure_retains_local_file transientPutCaps 1 5 sampleRecord
    (by decide) (by decide)
  exact ⟨by decide, by decide, h.1, h.2.2.2⟩

/-- Claim C7: after a successful download and upload the deletion of the
local file is attempted; it succeeds exactly when `os.remove` does, and a
deletion failure leaves the outcome a soft `cleanupFailed` — never the
download- or upload-failure outcome. -/
theorem cleanup_after_successful_transfer (caps : Caps) (retries backoff : Nat) (r : Record)
    (hdl : pyTruthy (downloadFile caps.fetch retries backoff).1 = true)
    (hup : pyTruthy (uploadToS3 caps.put retries backoff).1 = true) :
    (processRecord caps retries backoff r).removeAttempted = true
    ∧ (processRecord caps retries backoff r).fileDeleted = caps.removeOk
    ∧ (processRecord caps retries backoff r).outcome =
        (if caps.removeOk then Outcome.cleaned else Outcome.cleanupFailed)
    ∧ (processRecord caps retries backoff r).outcome ≠ Outcome.failedUpload
    ∧ (processRecord caps retries backoff r).outcome ≠ Outcome.failedDownload := by
  refine ⟨?_, ?_, ?_, ?_, ?_⟩ <;>
    simp [processRecord, hdl, hup] <;> cases caps.removeOk <;> simp

/-- Witness for C7 with a failing `os.remove`: deletion is attempted, the
outcome is the soft `cleanupFailed`, and the record is not an upload
failure. -/
theorem cleanup_after_successful_transfer_witness :
    pyTruthy (downloadFile removeFailCaps.fetch 1 5).1 = true
    ∧ pyTruthy (uploadToS3 removeFailCaps.put 1 5).1 = true
    ∧ (processRecord removeFailCaps 1 5 sampleRecord).removeAttempted = true
    ∧ (processRecord removeFailCaps 1 5 sampleRecord).outcome = Outcome.cleanupFailed
    ∧ (processRecord removeFailCaps 1 5 sampleRecord).outcome ≠ Outcome.failedUpload := by
  have h := cleanup_after_successful_transfer removeFailCaps 1 5 sampleRecord
    (by decide) (by decide)
  exact ⟨by decide, by decide, h.1, h.2.2.1.trans (by decide), h.2.2.2.1⟩

/-- Counterexample to C8 as stated: on the literal manifest row of the spec
example, whose period reads `2024-06-28 to 2024-06-30`, the regex finds no
Japanese-format date, `parse_period` returns `None`, and the derived key is
`A1_None.zip`, not `A1_20240628-20240630.zip`. -/
theorem specExample_key_counterexample :
    parsePeriod "2024-06-28 to 2024-06-30" = none
    ∧ (processRecord goodCaps 2 5 specExampleRecord).fileName = "A1_None.zip"
    ∧ "A1_None.zip" ≠ "A1_20240628-20240630.zip" := by
  decide

/-- Claim C8 (amended): for the example row with id `A1` and the period
written in the expected Japanese format `2024年6月28日～2024年6月30日`, the
derived storage key is `A1_20240628-20240630.zip`, whatever the capability
outcomes and retry configuration. -/
theorem specExample_key_amended (caps : Caps) (retries backoff : Nat) :
    (processRecord caps retries backoff jpExampleRecord).fileName =
      "A1_20240628-20240630.zip" := by
  rw [processRecord_fileName]
  decide

/-- Counterexample to C9 as stated: a row missing a value for the required
データ名 column survives the filter and is returned, because the `dropna`
subset omits データ名 — the reader does not return exactly the rows whose
required fields are all present. -/
theorem manifest_dataName_counterexample :
    readUrlsFromCsv (some dataNameMissingCsv) = [dataNameMissingRow]
    ∧ colValue dataNameMissingCsv dataNameMissingRow "データ名" = none
    ∧ "データ名" ∈ requiredColumns := by
  refine ⟨by decide, by decide, by decide⟩

/-- Claim C9 (amended): a read or decode failure yields the empty sequence;
a missing required column yields the empty sequence; otherwise the result is
a subsequence of the rows in source order, containing exactly the rows whose
`dropna` columns (delivery id, period, URL, expiration — not データ名) all
have a present value. -/
theorem manifest_reader_filtering (csv : Csv) :
    readUrlsFromCsv none = []
    ∧ ((∃ c ∈ requiredColumns, c ∉ csv.columns) → readUrlsFromCsv (some csv) = [])
    ∧ List.Sublist (readUrlsFromCsv (some csv)) csv.rows
    ∧ ((∀ c ∈ requiredColumns, c ∈ csv.columns) →
        ∀ row, row ∈ readUrlsFromCsv (some csv) ↔
          row ∈ csv.rows ∧ ∀ c ∈ dropnaColumns, (colValue csv row c).isSome = true) := by
  have hsome : readUrlsFromCsv (some csv) =
      if requiredColumns.all (fun c => csv.columns.contains c) then
        csv.rows.filter (rowKeptByDropna csv)
      else [] := rfl
  refine ⟨rfl, ?_, ?_, ?_⟩
  · rintro ⟨c, hc, hnc⟩
    have hfalse : (requiredColumns.all fun c => csv.columns.contains c) = false := by
      rw [List.all_eq_false]
      refine ⟨c, hc, ?_⟩
      simpa using hnc
    rw [hsome, hfalse]
    rfl
  · rcases Bool.eq_false_or_eq_true (requiredColumns.all fun c => csv.columns.contains c)
      with hall | hall
    · rw [hsome, hall]
      exact List.filter_sublist _
    · rw [hsome, hall]
      exact List.nil_sublist _
  · intro hcols row
    have hall : (requiredColumns.all fun c => csv.columns.contains c) = true := by
      rw [List.all_eq_true]
      intro c hc
      simpa using hcols c hc
    rw [hsome, hall]
    show row ∈ csv.rows.filter (rowKeptByDropna csv) ↔ _
    rw [List.mem_filter]
    simp [rowKeptByDropna, List.all_eq_true]

/-- Witness for C9: a manifest missing the required URL column short-circuits
to the empty record list. -/
theorem manifest_reader_filtering_witness :
    readUrlsFromCsv (some missingColCsv) = [] :=
  (manifest_reader_filtering missingColCsv).2.1 ⟨"URL", by decide, by decide⟩

/-- Claim C10: with a retry count of 0, both loops never invoke their
capability and fall off the end returning Python `None` (not `False`); since
`main` only tests falsiness, every record is then failed at the download
stage with zero fetch calls and zero put calls. -/
theorem zero_retries_no_attempts (fetch : Nat → FetchOutcome) (put : Nat → UploadOutcome)
    (caps : Caps) (backoff : Nat) (r : Record) :
    downloadFile fetch 0 backoff = (none, 0, [])
    ∧ uploadToS3 put 0 backoff = (none, 0, [])
    ∧ (processRecord caps 0 backoff r).fetchCalls = 0
    ∧ (processRecord caps 0 backoff r).downloadResult = none
    ∧ (processRecord caps 0 backoff r).uploadAttempted = false
    ∧ (processRecord caps 0 backoff r).putCalls = 0
    ∧ (processRecord caps 0 backoff r).outcome = Outcome.failedDownload := by
  refine ⟨rfl, rfl, ?_, ?_, ?_, ?_, ?_⟩ <;> rfl

end WeatherS3
